import Mathlib

/-!
# Verification of the telemetry page-runner execution engine

A shallow embedding of `telemetry/page/page_runner.py`: the work-list
builder (`_ShuffleAndFilterPageSet`), the pre-loop archive check, the
session state (`_RunState` and its `Close`), the per-item executor
(`_RunPage` with its phases), the retry loop of `PageRunner.Run`, and the
sequential output-file naming (`_GetSequentialFileName`).

External collaborators (browser, test object, result sink, filesystem)
are modelled by the observable events the engine sends them and by
script/oracle parameters describing their answers, so that each control
path of the source corresponds to one choice of script.
-/

/-- One page-visit specification, as consumed by the runner.
`id` stands for the page object's identity; `url_scheme` for
`urlparse.urlparse(page.url).scheme`; `archive_path` is nullable. -/
structure Page where
  id : Nat
  url_scheme : String
  archive_path : Option String
  disabled : Bool
  deriving DecidableEq, Repr

/-- Observable side effects the engine performs on its collaborators
(browser control surface, result sink, test hooks). -/
inductive Event where
  | tabDisconnect : Event
  | browserClose : Event
  | browserCreate (page : Nat) : Event
  | tabAcquire : Event
  | capabilityCheck (page : Nat) : Event
  | addSkipped (page : Nat) : Event
  | addFailure (page : Nat) : Event
  | addSuccess (page : Nat) : Event
  | cleanUp (page : Nat) : Event
  | didRunPageSet : Event
  deriving DecidableEq, Repr

/-- The session state bag, `_RunState` in the source: at most one browser
handle, at most one tab handle, and the tracing-active flag.  (The
source's `first_browser` field only gates a one-time warning and is not
modelled.)  `browser = false` stands for `self.browser is None`. -/
structure RunState where
  browser : Bool
  tab : Bool
  is_tracing : Bool
  deriving DecidableEq, Repr

/-- `_RunState()`: fresh state with no browser, no tab, not tracing. -/
def RunState.init : RunState := ⟨false, false, false⟩

/-- `_RunState.Close`: clears the tracing flag unconditionally, then
disconnects the tab if present and closes the browser if present.
Returns the new state and the events emitted (a disconnect / close is
emitted only when the corresponding handle was live). -/
def RunState.Close (s : RunState) : RunState × List Event :=
  (⟨false, false, false⟩,
    (if s.tab then [Event.tabDisconnect] else []) ++
    (if s.browser then [Event.browserClose] else []))

/-- Run configuration fields consumed by `_ShuffleAndFilterPageSet`.
`pageset_shuffle_order_file` carries the file name when the option is
supplied. -/
structure BuildOptions where
  pageset_shuffle : Bool
  pageset_shuffle_order_file : Option String
  pageset_repeat : Nat
  page_repeat : Nat
  deriving DecidableEq, Repr

/-- `_ShuffleAndFilterPageSet(page_set, options)`.
`reorderFn` models `page_set.ReorderPageSet(file)`; `shuffleFn` models
the in-place `random.Random().shuffle` (an unspecified permutation);
`page_filter` models `page_filter.IsSelected`.  Mirrors the source:
an order file without the shuffle flag raises; an order file with the
shuffle flag returns the reordered set verbatim; otherwise disabled or
filtered-out pages are dropped, the survivors are optionally shuffled,
and the repeat counts expand the list outer-major, page-next,
inner-minor. -/
def ShuffleAndFilterPageSet (reorderFn : String → List Page)
    (shuffleFn : List Page → List Page) (page_filter : Page → Bool)
    (page_set : List Page) (options : BuildOptions) :
    Except String (List Page) :=
  if options.pageset_shuffle_order_file.isSome ∧ ¬ options.pageset_shuffle then
    .error "--pageset-shuffle-order-file requires --pageset-shuffle."
  else
    match options.pageset_shuffle_order_file with
    | some f => .ok (reorderFn f)
    | none =>
      let pages := page_set.filter (fun p => !p.disabled && page_filter p)
      let pages := if options.pageset_shuffle then shuffleFn pages else pages
      .ok ((List.range options.pageset_repeat).flatMap (fun _ =>
        pages.flatMap (fun p => List.replicate options.page_repeat p)))

/-- Per-page verdict of the pre-loop archive check in `PageRunner.Run`
(lines 78-115): `true` when the page is added to
`pages_without_archives` (and a failure is recorded for it).  A
`file`-scheme page is skipped by the `continue`; a page without an
archive path fails unless live sites are allowed; a page whose archive
file is missing fails, outside recording mode, unless live sites are
allowed.  `isFile` models `os.path.isfile`. -/
def archiveCheckFails (allow_live_sites wpr_record : Bool)
    (isFile : String → Bool) (p : Page) : Bool :=
  if p.url_scheme = "file" then false
  else
    match p.archive_path with
    | none => !allow_live_sites
    | some ap =>
      if wpr_record then false
      else if isFile ap then false
      else !allow_live_sites

/-- The pre-loop archive check: returns the surviving page list
(`pages = [page for page in pages if page not in pages_without_archives]`)
and the failure events recorded to the sink (one `AddFailure` per
occurrence visited by the checking loop). -/
def archiveCheck (allow_live_sites wpr_record : Bool)
    (isFile : String → Bool) (pages : List Page) :
    List Page × List Event :=
  let without := pages.filter (archiveCheckFails allow_live_sites wpr_record isFile)
  (pages.filter (fun p => !without.contains p),
   (pages.filter (archiveCheckFails allow_live_sites wpr_record isFile)).map
     (fun p => Event.addFailure p.id))

/-- Outcome of one `_PreparePage` call, as seen by `_RunPage`: either it
returned (with `did_prepare` true or false) or it raised one of the
exception classes `_RunPage` distinguishes. -/
inductive PrepareResult where
  | ok : PrepareResult
  | loginFailed : PrepareResult
  | timeout : PrepareResult
  | tabCrash : PrepareResult
  | browserGone : PrepareResult
  | otherError : PrepareResult
  deriving DecidableEq, Repr

/-- Outcome of one `test.Run` call, as seen by `_RunPage`. -/
inductive TestRunResult where
  | ok : TestRunResult
  | testFailure : TestRunResult
  | timeout : TestRunResult
  | tabCrash : TestRunResult
  | browserGone : TestRunResult
  | otherError : TestRunResult
  deriving DecidableEq, Repr

/-- How one `_RunPage` call transfers control back to the loop in `Run`:
a normal return, or one of the exception classes that escape it. -/
inductive PageOutcome where
  | done : PageOutcome
  | raiseTabCrash : PageOutcome
  | raiseBrowserGone : PageOutcome
  | raiseOther : PageOutcome
  deriving DecidableEq, Repr

/-- Script for one attempt at a page: what the external world answers to
`test.CanRunForPage`, `_PreparePage` and `test.Run` during that attempt. -/
structure AttemptScript where
  canRun : Bool
  prep : PrepareResult
  run : TestRunResult
  deriving DecidableEq, Repr

instance : Inhabited AttemptScript := ⟨⟨true, .ok, .ok⟩⟩

/-- `_RunPage(options, page, tab, test, results)` for the page with id
`id`, driven by script `s`.  Mirrors the source exactly:
* capability check first; a negative answer records Skipped and returns;
* Prepare phase: a timeout records Failed and returns (no cleanup); a
  tab crash records Failed and re-raises (no cleanup); a lost connection
  re-raises untouched (no cleanup); an unexpected error cleans up and
  re-raises; a login failure (recorded inside `_PreparePage`) returns
  after cleanup;
* Run phase, guarded by `finally: self._CleanUpPage(...)`: a declared
  test failure or a timeout records Failed and returns; a tab crash
  records Failed and re-raises; a lost connection re-raises; an
  unexpected error re-raises; on success, `AddSuccess` runs after the
  `finally` block.
`cleanUp` stands for `_CleanUpPage` (login release when one occurred,
then `util.CloseConnections(tab)`). -/
def RunPage (s : AttemptScript) (id : Nat) : List Event × PageOutcome :=
  if ¬ s.canRun then ([.capabilityCheck id, .addSkipped id], .done)
  else
    match s.prep with
    | .timeout => ([.capabilityCheck id, .addFailure id], .done)
    | .tabCrash => ([.capabilityCheck id, .addFailure id], .raiseTabCrash)
    | .browserGone => ([.capabilityCheck id], .raiseBrowserGone)
    | .otherError => ([.capabilityCheck id, .cleanUp id], .raiseOther)
    | .loginFailed => ([.capabilityCheck id, .addFailure id, .cleanUp id], .done)
    | .ok =>
      match s.run with
      | .ok => ([.capabilityCheck id, .cleanUp id, .addSuccess id], .done)
      | .testFailure => ([.capabilityCheck id, .addFailure id, .cleanUp id], .done)
      | .timeout => ([.capabilityCheck id, .addFailure id, .cleanUp id], .done)
      | .tabCrash => ([.capabilityCheck id, .addFailure id, .cleanUp id], .raiseTabCrash)
      | .browserGone => ([.capabilityCheck id, .cleanUp id], .raiseBrowserGone)
      | .otherError => ([.capabilityCheck id, .cleanUp id], .raiseOther)

/-- Loop-level configuration read inside `PageRunner.Run`'s retry loop:
whether the test wants a browser restart after each run
(`test.needs_browser_restart_after_each_run`), whether tracing is
active for the run (`options.trace_dir` set and the browser supports
tracing), and whether profiling is configured
(`options.profiler_dir` set). -/
structure LoopCfg where
  needsRestart : Bool
  tracing : Bool
  profiling : Bool
  deriving DecidableEq, Repr

/-- How one iteration of the `while tries` loop ends: `broke` via the
`break` statement, `retry` via the `except BrowserGoneException` handler
(budget permitting), `fatal` via an exception that escapes `Run`. -/
inductive AttemptOutcome where
  | broke : AttemptOutcome
  | retry : AttemptOutcome
  | fatal : AttemptOutcome
  deriving DecidableEq, Repr

/-- One iteration of the `while tries` body for page `pg` in state `st`:
set up the browser if absent, acquire a tab if absent, start tracing and
profiling if configured (both against the live browser, with no
engine-observable event), call `_RunPage`, then handle its outcome as
the source does.
* Tab crash: the handler closes the session, then falls through to
  `_EndTracing` — a no-op because `Close` cleared `is_tracing` — and to
  `_EndProfiling` when a profiler directory is configured; that call
  dereferences the now-`None` browser (`state.browser.StopProfiling()`),
  and the resulting `AttributeError` is not a `BrowserGoneException`, so
  it escapes the loop (fatal).  Without a profiler the iteration
  `break`s (and an already-closed session makes the restart close a
  no-op).
* Lost connection: close and signal a retry to the outer handler.
* Other exceptions escape directly (lines 196-203 are skipped).
* Normal return: `_EndTracing` clears the tracing flag, `_EndProfiling`
  stops the profiler on the live browser, and the session is closed when
  the test demands a restart after each run. -/
def runAttempt (cfg : LoopCfg) (s : AttemptScript) (pg : Page) (st : RunState) :
    List Event × RunState × AttemptOutcome :=
  let create := if st.browser then ([], st)
    else ([Event.browserCreate pg.id], { st with browser := true })
  let st1 := create.2
  let acquire := if st1.tab then ([], st1)
    else ([Event.tabAcquire], { st1 with tab := true })
  let st2 := acquire.2
  let st3 := if cfg.tracing then { st2 with is_tracing := true } else st2
  let body := RunPage s pg.id
  match body.2 with
  | .raiseBrowserGone =>
    let closed := st3.Close
    (create.1 ++ acquire.1 ++ body.1 ++ closed.2, closed.1, .retry)
  | .raiseOther =>
    (create.1 ++ acquire.1 ++ body.1, st3, .fatal)
  | .raiseTabCrash =>
    let closed := st3.Close
    if cfg.profiling then
      (create.1 ++ acquire.1 ++ body.1 ++ closed.2, closed.1, .fatal)
    else
      let rest := if cfg.needsRestart then closed.1.Close else (closed.1, [])
      (create.1 ++ acquire.1 ++ body.1 ++ closed.2 ++ rest.2, rest.1, .broke)
  | .done =>
    let st4 := if cfg.tracing then { st3 with is_tracing := false } else st3
    let rest := if cfg.needsRestart then st4.Close else (st4, [])
    (create.1 ++ acquire.1 ++ body.1 ++ rest.2, rest.1, .broke)

/-- The `tries = 3; while tries: ...` retry loop for one page.  `sched`
lists the attempt scripts in order (attempt `i` is driven by
`sched.getD i default`); `tries` is the remaining budget.  Returns the
events, the final state, and whether a fatal exception escapes (the
re-raise when the budget hits zero, or an unexpected fault). -/
def runTries (cfg : LoopCfg) (sched : List AttemptScript) (pg : Page) :
    Nat → Nat → RunState → List Event × RunState × Bool
  | _, 0, st => ([], st, false)
  | i, t + 1, st =>
    let att := runAttempt cfg (sched.getD i default) pg st
    match att.2.2 with
    | .broke => (att.1, att.2.1, false)
    | .fatal => (att.1, att.2.1, true)
    | .retry =>
      if t = 0 then (att.1, att.2.1, true)
      else
        let rest := runTries cfg sched pg (i + 1) t att.2.1
        (att.1 ++ rest.1, rest.2.1, rest.2.2)

/-- One page together with the scripted behaviour of its attempts. -/
structure WorkItem where
  page : Page
  sched : List AttemptScript
  deriving Repr

/-- The `for page in pages` loop of `PageRunner.Run` (lines 142-211):
per page, close and replace the session when the archive path changes
(`last_archive_path != page.archive_path`; a fresh `_RunState()` equals
the closed state in this model), then run the retry loop.  Returns the
per-page event blocks (each block is everything emitted while that page
was the current one), the final state, and whether a fatal exception
aborted the loop — in which case the remaining pages contribute no
blocks. -/
def runPages (cfg : LoopCfg) :
    List WorkItem → RunState → Option String →
    List (List Event) × RunState × Bool
  | [], st, _ => ([], st, false)
  | w :: rest, st, lastArchive =>
    let switch := if lastArchive = w.page.archive_path then (st, ([] : List Event))
      else st.Close
    let tr := runTries cfg w.sched w.page 0 3 switch.1
    if tr.2.2 then ([switch.2 ++ tr.1], tr.2.1, true)
    else
      let more := runPages cfg rest tr.2.1 w.page.archive_path
      ((switch.2 ++ tr.1) :: more.1, more.2.1, more.2.2)

/-- The whole of `PageRunner.Run` after work-list construction: the page
loop starting from `_RunState()` and `last_archive_path = None`, then —
only when the loop completed normally — `test.DidRunPageSet(...)`, and
in all cases the `finally: state.Close()`.  Returns the page blocks, the
trailing events (finalize hook and final teardown), the state after the
final teardown, and the fatal flag. -/
def RunLoop (cfg : LoopCfg) (items : List WorkItem) :
    List (List Event) × List Event × RunState × Bool :=
  let loop := runPages cfg items RunState.init none
  let finalClose := loop.2.1.Close
  (loop.1,
   (if loop.2.2 then [] else [Event.didRunPageSet]) ++ finalClose.2,
   finalClose.1, loop.2.2)

/-- All events of a `RunLoop`, in order. -/
def RunLoop.events (cfg : LoopCfg) (items : List WorkItem) : List Event :=
  (RunLoop cfg items).1.flatten ++ (RunLoop cfg items).2.1

/-- `'%03d' % k`: the decimal numeral of `k` left-padded with zeros to
three characters (numerals of four or more digits are kept whole). -/
def pad3 (k : Nat) : String :=
  if k < 1000 then
    String.mk [Nat.digitChar (k / 100), Nat.digitChar (k / 10 % 10), Nat.digitChar (k % 10)]
  else Nat.repr k

/-- `'%s_%03d' % (base_name, index)`. -/
def seqName (base : String) (k : Nat) : String := base ++ "_" ++ pad3 k

/-- Whether `glob.glob(stem + '.*')` is non-empty over the directory
contents `fs`: some existing file name starts with `stem` followed by a
dot (the `*` wildcard matches any, possibly empty, remainder). -/
def globHasMatch (fs : List String) (stem : String) : Bool :=
  fs.any fun f => (stem ++ ".").data.isPrefixOf f.data

/-- `_GetSequentialFileName(base_name)`: starting from `index`, return
the first `base_NNN` for which the wildcard glob finds no file.  The
source's `while True` loop is modelled with explicit fuel (the loop
terminates as soon as some index is free; `none` means the fuel ran out
before a free index was reached). -/
def GetSequentialFileName (fs : List String) (base : String) :
    Nat → Nat → Option String
  | 0, _ => none
  | fuel + 1, index =>
    let output_name := seqName base index
    if globHasMatch fs output_name then GetSequentialFileName fs base fuel (index + 1)
    else some output_name

/-- The trace file name chosen by `_EndTracing`: `trace_dir`-joined safe
name, sequentially disambiguated when either repeat count differs
from 1, with `.json` appended. -/
def traceFileName (page_repeat pageset_repeat : Nat) (fs : List String)
    (trace_dir safe_name : String) (fuel : Nat) : Option String :=
  let base := trace_dir ++ "/" ++ safe_name
  if page_repeat ≠ 1 ∨ pageset_repeat ≠ 1 then
    (GetSequentialFileName fs base fuel 0).map (fun n => n ++ ".json")
  else some (base ++ ".json")

/-- The profile output name chosen by `_SetupProfiling`: `profiler_dir`-
joined safe name, sequentially disambiguated when either repeat count
differs from 1. -/
def profileFileName (page_repeat pageset_repeat : Nat) (fs : List String)
    (profiler_dir safe_name : String) (fuel : Nat) : Option String :=
  let base := profiler_dir ++ "/" ++ safe_name
  if page_repeat ≠ 1 ∨ pageset_repeat ≠ 1 then
    GetSequentialFileName fs base fuel 0
  else some base

/-- Number of `CanRunForPage` capability checks in an event list — one
per `_RunPage` call, so this counts execution attempts. -/
def countCap (l : List Event) : Nat :=
  (l.filter fun e => match e with | .capabilityCheck _ => true | _ => false).length

/-- Number of browser creations (`possible_browser.Create()` via
`_SetupBrowser`) in an event list: the session-creation counter. -/
def countCreates (l : List Event) : Nat :=
  (l.filter fun e => match e with | .browserCreate _ => true | _ => false).length

/-- Number of browser teardowns (`browser.Close()`) in an event list. -/
def countCloses (l : List Event) : Nat :=
  (l.filter fun e => match e with | .browserClose => true | _ => false).length

/-- Number of `AddFailure` sink calls in an event list. -/
def countFailures (l : List Event) : Nat :=
  (l.filter fun e => match e with | .addFailure _ => true | _ => false).length

/-- Number of `_CleanUpPage` executions in an event list. -/
def countCleanUps (l : List Event) : Nat :=
  (l.filter fun e => match e with | .cleanUp _ => true | _ => false).length

/-- Number of `test.DidRunPageSet` finalize-hook calls in an event list. -/
def countHook (l : List Event) : Nat :=
  (l.filter fun e => match e with | .didRunPageSet => true | _ => false).length

/-- A page with neutral fields, standing for an arbitrary page object
with identity `id` and no archive. -/
def pageH (id : Nat) : Page := ⟨id, "http", none, false⟩

/-- An attempt on which the external world misbehaves nowhere. -/
def okScript : AttemptScript := ⟨true, .ok, .ok⟩

/-- An attempt that raises the lost-connection fault
(`BrowserGoneException`). -/
def goneScript : AttemptScript := ⟨true, .browserGone, .ok⟩

lemma countCap_append (l1 l2 : List Event) :
    countCap (l1 ++ l2) = countCap l1 + countCap l2 := by
  simp [countCap, List.filter_append]

lemma countHook_append (l1 l2 : List Event) :
    countHook (l1 ++ l2) = countHook l1 + countHook l2 := by
  simp [countHook, List.filter_append]

lemma countCloses_append (l1 l2 : List Event) :
    countCloses (l1 ++ l2) = countCloses l1 + countCloses l2 := by
  simp [countCloses, List.filter_append]

lemma countCreates_append (l1 l2 : List Event) :
    countCreates (l1 ++ l2) = countCreates l1 + countCreates l2 := by
  simp [countCreates, List.filter_append]

lemma runPage_countCap (s : AttemptScript) (id : Nat) :
    countCap (RunPage s id).1 = 1 := by
  obtain ⟨c, p, r⟩ := s
  cases c <;> cases p <;> cases r <;> rfl

lemma runPage_countHook (s : AttemptScript) (id : Nat) :
    countHook (RunPage s id).1 = 0 := by
  obtain ⟨c, p, r⟩ := s
  cases c <;> cases p <;> cases r <;> rfl

lemma runPage_no_session_events (s : AttemptScript) (id : Nat) :
    countCloses (RunPage s id).1 = 0 ∧ countCreates (RunPage s id).1 = 0 := by
  obtain ⟨c, p, r⟩ := s
  cases c <;> cases p <;> cases r <;> exact ⟨rfl, rfl⟩

lemma runAttempt_done (cfg : LoopCfg) (s : AttemptScript) (pg : Page) (st : RunState)
    (h : (RunPage s pg.id).2 = .done) (hr : cfg.needsRestart = false) :
    runAttempt cfg s pg st =
      ((if st.browser then [] else [Event.browserCreate pg.id]) ++
       (if st.tab then [] else [Event.tabAcquire]) ++ (RunPage s pg.id).1,
       ⟨true, true, if cfg.tracing then false else st.is_tracing⟩, .broke) := by
  obtain ⟨nr, trc, pf⟩ := cfg
  obtain ⟨b, t, tr⟩ := st
  simp only at hr
  subst hr
  rcases hb : RunPage s pg.id with ⟨ev, out⟩
  rw [hb] at h
  simp only at h
  subst h
  cases b <;> cases t <;> cases trc <;>
    simp [runAttempt, hb]

lemma runAttempt_done_eq (cfg : LoopCfg) (s : AttemptScript) (pg : Page) (st : RunState)
    (h : (RunPage s pg.id).2 = .done) :
    runAttempt cfg s pg st =
      ((if st.browser then [] else [Event.browserCreate pg.id]) ++
       (if st.tab then [] else [Event.tabAcquire]) ++ (RunPage s pg.id).1 ++
       (if cfg.needsRestart then [Event.tabDisconnect, Event.browserClose] else []),
       (if cfg.needsRestart then ⟨false, false, false⟩
        else ⟨true, true, if cfg.tracing then false else st.is_tracing⟩),
       .broke) := by
  obtain ⟨nr, trc, pf⟩ := cfg
  obtain ⟨b, t, tr⟩ := st
  rcases hb : RunPage s pg.id with ⟨ev, out⟩
  rw [hb] at h
  simp only at h
  subst h
  cases b <;> cases t <;> cases trc <;> cases nr <;>
    simp [runAttempt, hb, RunState.Close]

lemma runAttempt_tabCrash (cfg : LoopCfg) (s : AttemptScript) (pg : Page) (st : RunState)
    (h : (RunPage s pg.id).2 = .raiseTabCrash) :
    runAttempt cfg s pg st =
      ((if st.browser then [] else [Event.browserCreate pg.id]) ++
       (if st.tab then [] else [Event.tabAcquire]) ++ (RunPage s pg.id).1 ++
       [Event.tabDisconnect, Event.browserClose],
       ⟨false, false, false⟩,
       if cfg.profiling then .fatal else .broke) := by
  obtain ⟨nr, trc, pf⟩ := cfg
  obtain ⟨b, t, tr⟩ := st
  rcases hb : RunPage s pg.id with ⟨ev, out⟩
  rw [hb] at h
  simp only at h
  subst h
  cases b <;> cases t <;> cases trc <;> cases nr <;> cases pf <;>
    simp [runAttempt, hb, RunState.Close]

lemma runAttempt_gone (cfg : LoopCfg) (s : AttemptScript) (pg : Page) (st : RunState)
    (h : (RunPage s pg.id).2 = .raiseBrowserGone) :
    runAttempt cfg s pg st =
      ((if st.browser then [] else [Event.browserCreate pg.id]) ++
       (if st.tab then [] else [Event.tabAcquire]) ++ (RunPage s pg.id).1 ++
       [Event.tabDisconnect, Event.browserClose],
       ⟨false, false, false⟩, .retry) := by
  obtain ⟨nr, trc, pf⟩ := cfg
  obtain ⟨b, t, tr⟩ := st
  rcases hb : RunPage s pg.id with ⟨ev, out⟩
  rw [hb] at h
  simp only at h
  subst h
  cases b <;> cases t <;> cases trc <;>
    simp [runAttempt, hb, RunState.Close]

lemma runAttempt_other (cfg : LoopCfg) (s : AttemptScript) (pg : Page) (st : RunState)
    (h : (RunPage s pg.id).2 = .raiseOther) :
    runAttempt cfg s pg st =
      ((if st.browser then [] else [Event.browserCreate pg.id]) ++
       (if st.tab then [] else [Event.tabAcquire]) ++ (RunPage s pg.id).1,
       ⟨true, true, if cfg.tracing then true else st.is_tracing⟩, .fatal) := by
  obtain ⟨nr, trc, pf⟩ := cfg
  obtain ⟨b, t, tr⟩ := st
  rcases hb : RunPage s pg.id with ⟨ev, out⟩
  rw [hb] at h
  simp only at h
  subst h
  cases b <;> cases t <;> cases trc <;>
    simp [runAttempt, hb]

lemma countCap_ifCreate (b : Bool) (id : Nat) :
    countCap (if b then [] else [Event.browserCreate id]) = 0 := by
  cases b <;> rfl

lemma countCap_ifAcquire (b : Bool) :
    countCap (if b then [] else [Event.tabAcquire]) = 0 := by
  cases b <;> rfl

lemma countCap_ifRestart (b : Bool) :
    countCap (if b then [Event.tabDisconnect, Event.browserClose] else []) = 0 := by
  cases b <;> rfl

lemma countHook_ifCreate (b : Bool) (id : Nat) :
    countHook (if b then [] else [Event.browserCreate id]) = 0 := by
  cases b <;> rfl

lemma countHook_ifAcquire (b : Bool) :
    countHook (if b then [] else [Event.tabAcquire]) = 0 := by
  cases b <;> rfl

lemma countHook_ifRestart (b : Bool) :
    countHook (if b then [Event.tabDisconnect, Event.browserClose] else []) = 0 := by
  cases b <;> rfl

lemma countCap_runAttempt (cfg : LoopCfg) (s : AttemptScript) (pg : Page) (st : RunState) :
    countCap (runAttempt cfg s pg st).1 = 1 := by
  have h1 := runPage_countCap s pg.id
  rcases hout : (RunPage s pg.id).2 with _ | _ | _ | _
  · rw [runAttempt_done_eq cfg s pg st hout]
    simp [countCap_append, countCap_ifCreate, countCap_ifAcquire, countCap_ifRestart, h1]
  · rw [runAttempt_tabCrash cfg s pg st hout]
    simp [countCap_append, countCap_ifCreate, countCap_ifAcquire, h1]
    rfl
  · rw [runAttempt_gone cfg s pg st hout]
    simp [countCap_append, countCap_ifCreate, countCap_ifAcquire, h1]
    rfl
  · rw [runAttempt_other cfg s pg st hout]
    simp [countCap_append, countCap_ifCreate, countCap_ifAcquire, h1]

lemma countHook_runAttempt (cfg : LoopCfg) (s : AttemptScript) (pg : Page) (st : RunState) :
    countHook (runAttempt cfg s pg st).1 = 0 := by
  have h1 := runPage_countHook s pg.id
  rcases hout : (RunPage s pg.id).2 with _ | _ | _ | _
  · rw [runAttempt_done_eq cfg s pg st hout]
    simp [countHook_append, countHook_ifCreate, countHook_ifAcquire, countHook_ifRestart, h1]
  · rw [runAttempt_tabCrash cfg s pg st hout]
    simp [countHook_append, countHook_ifCreate, countHook_ifAcquire, h1]
    rfl
  · rw [runAttempt_gone cfg s pg st hout]
    simp [countHook_append, countHook_ifCreate, countHook_ifAcquire, h1]
    rfl
  · rw [runAttempt_other cfg s pg st hout]
    simp [countHook_append, countHook_ifCreate, countHook_ifAcquire, h1]

lemma runTries_done (cfg : LoopCfg) (sched : List AttemptScript) (pg : Page) (st : RunState)
    (h : (RunPage (sched.getD 0 default) pg.id).2 = .done) (hr : cfg.needsRestart = false) :
    runTries cfg sched pg 0 3 st =
      ((if st.browser then [] else [Event.browserCreate pg.id]) ++
       (if st.tab then [] else [Event.tabAcquire]) ++
       (RunPage (sched.getD 0 default) pg.id).1,
       ⟨true, true, if cfg.tracing then false else st.is_tracing⟩, false) := by
  have ha := runAttempt_done cfg (sched.getD 0 default) pg st h hr
  simp only [runTries]
  rw [ha]

lemma countCap_runTries_le (cfg : LoopCfg) (sched : List AttemptScript) (pg : Page) :
    ∀ t i st, countCap (runTries cfg sched pg i t st).1 ≤ t := by
  intro t
  induction t with
  | zero => intro i st; simp [runTries, countCap]
  | succ t ih =>
    intro i st
    have hc := countCap_runAttempt cfg (sched.getD i default) pg st
    rcases ha : runAttempt cfg (sched.getD i default) pg st with ⟨ev, st2, out⟩
    rw [ha] at hc
    simp only at hc
    simp only [runTries]
    rw [ha]
    cases out with
    | broke =>
      show countCap ev ≤ t + 1
      omega
    | fatal =>
      show countCap ev ≤ t + 1
      omega
    | retry =>
      by_cases ht : t = 0
      · subst ht
        show countCap ev ≤ 0 + 1
        omega
      · have hrec := ih (i + 1) st2
        simp only [if_neg ht]
        show countCap (ev ++ (runTries cfg sched pg (i + 1) t st2).1) ≤ t + 1
        rw [countCap_append]
        omega

lemma countHook_runTries (cfg : LoopCfg) (sched : List AttemptScript) (pg : Page) :
    ∀ t i st, countHook (runTries cfg sched pg i t st).1 = 0 := by
  intro t
  induction t with
  | zero => intro i st; simp [runTries, countHook]
  | succ t ih =>
    intro i st
    have hc := countHook_runAttempt cfg (sched.getD i default) pg st
    rcases ha : runAttempt cfg (sched.getD i default) pg st with ⟨ev, st2, out⟩
    rw [ha] at hc
    simp only at hc
    simp only [runTries]
    rw [ha]
    cases out with
    | broke => exact hc
    | fatal => exact hc
    | retry =>
      by_cases ht : t = 0
      · subst ht
        exact hc
      · have hrec := ih (i + 1) st2
        simp only [if_neg ht]
        show countHook (ev ++ (runTries cfg sched pg (i + 1) t st2).1) = 0
        rw [countHook_append, hc, hrec]

lemma countHook_Close (s : RunState) : countHook (s.Close).2 = 0 := by
  obtain ⟨b, t, tr⟩ := s
  cases b <;> cases t <;> rfl

lemma countHook_runPages (cfg : LoopCfg) :
    ∀ (items : List WorkItem) (st : RunState) (la : Option String),
      countHook (runPages cfg items st la).1.flatten = 0 := by
  intro items
  induction items with
  | nil => intro st la; simp [runPages, countHook]
  | cons w rest ih =>
    intro st la
    rcases hs : (if la = w.page.archive_path then (st, ([] : List Event)) else st.Close)
      with ⟨st1, evS⟩
    have hS : countHook evS = 0 := by
      by_cases hla : la = w.page.archive_path
      · rw [if_pos hla] at hs
        cases hs
        rfl
      · rw [if_neg hla] at hs
        have hcl := countHook_Close st
        rw [hs] at hcl
        exact hcl
    rcases htr : runTries cfg w.sched w.page 0 3 st1 with ⟨ev, st2, fatal⟩
    have hE : countHook ev = 0 := by
      have hh := countHook_runTries cfg w.sched w.page 3 0 st1
      rw [htr] at hh
      exact hh
    cases fatal
    · simp [runPages, hs, htr, countHook_append, hS, hE, ih]
    · simp [runPages, hs, htr, countHook_append, hS, hE]

/-- C8: session teardown is idempotent — tearing down an already-torn-down
`_RunState` returns the same (empty) state and emits no events (no
duplicate tab disconnect or browser close), and any teardown leaves the
tracing-active flag cleared. -/
theorem close_idempotent (s : RunState) :
    (s.Close).1.Close = ((s.Close).1, ([] : List Event)) ∧
    (s.Close).1.is_tracing = false :=
  ⟨rfl, rfl⟩

/-- C3 (corrected): an explicit reorder file without a shuffle request is
the configuration error (the source raises
`--pageset-shuffle-order-file requires --pageset-shuffle.`); when the
reorder file and the shuffle flag are both supplied, no error is raised
and the reordered page set is returned verbatim. -/
theorem order_file_requires_shuffle (reorderFn : String → List Page)
    (shuffleFn : List Page → List Page) (page_filter : Page → Bool)
    (page_set : List Page) (f : String) (r1 r2 : Nat) :
    ShuffleAndFilterPageSet reorderFn shuffleFn page_filter page_set ⟨false, some f, r1, r2⟩ =
      .error "--pageset-shuffle-order-file requires --pageset-shuffle." ∧
    ShuffleAndFilterPageSet reorderFn shuffleFn page_filter page_set ⟨true, some f, r1, r2⟩ =
      .ok (reorderFn f) :=
  ⟨rfl, rfl⟩

/-- C3 counterexample: supplying both a shuffle request and an explicit
reorder file does NOT signal a configuration error — the builder returns
the reordered set, refuting the claim that the combination is an error
in 100% of cases. -/
theorem order_file_with_shuffle_accepted_cex :
    ShuffleAndFilterPageSet (fun _ => []) (fun l => l) (fun _ => true) []
      ⟨true, some "order.txt", 3, 2⟩ = .ok [] :=
  rfl

/-- C2 (corrected): `_CleanUpPage` runs exactly once on every exit path
from the Run phase (success, declared failure, timeout, tab crash, lost
connection, unexpected fault) and on the login-failure and
unexpected-fault exits from the Prepare phase, but it does NOT run on
the timeout, tab-crash or lost-connection exits from the Prepare phase,
nor on the capability-check skip. -/
theorem cleanup_exit_paths (s : AttemptScript) (id : Nat) :
    (s.canRun = true → s.prep = .ok → countCleanUps (RunPage s id).1 = 1) ∧
    (s.canRun = true → (s.prep = .loginFailed ∨ s.prep = .otherError) →
      countCleanUps (RunPage s id).1 = 1) ∧
    (s.canRun = true →
      (s.prep = .timeout ∨ s.prep = .tabCrash ∨ s.prep = .browserGone) →
      countCleanUps (RunPage s id).1 = 0) ∧
    (s.canRun = false → countCleanUps (RunPage s id).1 = 0) := by
  obtain ⟨c, p, r⟩ := s
  cases c <;> cases p <;> cases r <;> refine ⟨?_, ?_, ?_, ?_⟩ <;> intros <;>
    first
      | rfl
      | simp_all

/-- C2 counterexample: a timeout during the Prepare phase is an exit
from steps 1-3 other than the capability-check skip (it records a
failure and returns), yet no cleanup runs — refuting the claim that
cleanup runs on every such exit path. -/
theorem prepare_timeout_no_cleanup_cex :
    (RunPage ⟨true, .timeout, .ok⟩ 0).2 = .done ∧
    countFailures (RunPage ⟨true, .timeout, .ok⟩ 0).1 = 1 ∧
    countCleanUps (RunPage ⟨true, .timeout, .ok⟩ 0).1 = 0 :=
  ⟨rfl, rfl, rfl⟩

/-- C2 witness: a tab crash during the Run phase cleans up exactly once;
a timeout during the Prepare phase cleans up zero times. -/
theorem cleanup_exit_paths_witness :
    countCleanUps (RunPage ⟨true, .ok, .tabCrash⟩ 3).1 = 1 ∧
    countCleanUps (RunPage ⟨true, .timeout, .ok⟩ 3).1 = 0 :=
  ⟨(cleanup_exit_paths ⟨true, .ok, .tabCrash⟩ 3).1 rfl rfl,
   (cleanup_exit_paths ⟨true, .timeout, .ok⟩ 3).2.2.1 rfl (Or.inl rfl)⟩

lemma length_flatMap_replicate (L : List Page) (r : Nat) :
    (L.flatMap fun p => List.replicate r p).length = L.length * r := by
  induction L with
  | nil => simp
  | cons a l ih =>
    rw [List.flatMap_cons, List.length_append, List.length_replicate, ih,
      List.length_cons, Nat.succ_mul]
    omega

lemma length_flatMap_range (r : Nat) (L : List Page) :
    ((List.range r).flatMap fun _ => L).length = r * L.length := by
  induction r with
  | zero => simp
  | succ n ih =>
    rw [List.range_succ, List.flatMap_append, List.length_append, ih]
    simp [Nat.succ_mul]

/-- C5: without an explicit reorder file, the builder first drops
disabled or filtered-out pages, then (after the optional shuffle, which
permutes and hence preserves length) expands the survivors outer-major,
page-next, inner-minor; the result has exactly
`|survivors| * pageset_repeat * page_repeat` entries. -/
theorem worklist_filter_repeat_shape (reorderFn : String → List Page)
    (shuffleFn : List Page → List Page) (page_filter : Page → Bool)
    (page_set : List Page) (shuffle : Bool) (r1 r2 : Nat)
    (hlen : ∀ l, (shuffleFn l).length = l.length) :
    ShuffleAndFilterPageSet reorderFn shuffleFn page_filter page_set ⟨shuffle, none, r1, r2⟩ =
      .ok ((List.range r1).flatMap fun _ =>
        ((if shuffle then shuffleFn (page_set.filter fun p => !p.disabled && page_filter p)
          else page_set.filter fun p => !p.disabled && page_filter p).flatMap
          fun p => List.replicate r2 p)) ∧
    ((List.range r1).flatMap fun _ =>
        ((if shuffle then shuffleFn (page_set.filter fun p => !p.disabled && page_filter p)
          else page_set.filter fun p => !p.disabled && page_filter p).flatMap
          fun p => List.replicate r2 p)).length =
      (page_set.filter fun p => !p.disabled && page_filter p).length * r1 * r2 := by
  constructor
  · rfl
  · rw [length_flatMap_range, length_flatMap_replicate]
    have hL : (if shuffle then shuffleFn (page_set.filter fun p => !p.disabled && page_filter p)
        else page_set.filter fun p => !p.disabled && page_filter p).length =
        (page_set.filter fun p => !p.disabled && page_filter p).length := by
      cases shuffle
      · rfl
      · simp [hlen]
    rw [hL]
    ring

/-- C5 witness: two enabled pages and one disabled page, set-repeat 1,
page-repeat 2, no shuffle, give exactly the four-entry work list
`[page1, page1, page2, page2]`. -/
theorem worklist_filter_repeat_shape_witness :
    ShuffleAndFilterPageSet (fun _ => []) (fun l => l) (fun _ => true)
      [⟨1, "u1", none, false⟩, ⟨2, "u2", none, false⟩, ⟨3, "u3", none, true⟩]
      ⟨false, none, 1, 2⟩ =
      .ok [⟨1, "u1", none, false⟩, ⟨1, "u1", none, false⟩,
           ⟨2, "u2", none, false⟩, ⟨2, "u2", none, false⟩] :=
  (worklist_filter_repeat_shape (fun _ => []) (fun l => l) (fun _ => true)
    [⟨1, "u1", none, false⟩, ⟨2, "u2", none, false⟩, ⟨3, "u3", none, true⟩]
    false 1 2 (fun _ => rfl)).1

lemma getSequentialFileName_from (fs : List String) (base : String) :
    ∀ (d i fuel : Nat),
      (∀ j, j < d → globHasMatch fs (seqName base (i + j)) = true) →
      globHasMatch fs (seqName base (i + d)) = false →
      d < fuel →
      GetSequentialFileName fs base fuel i = some (seqName base (i + d)) := by
  intro d
  induction d with
  | zero =>
    intro i fuel hall hfree hlt
    obtain ⟨f, rfl⟩ := Nat.exists_eq_add_of_lt hlt
    simp only [Nat.add_zero] at hfree
    simp [GetSequentialFileName, hfree]
  | succ d ih =>
    intro i fuel hall hfree hlt
    obtain ⟨f, rfl⟩ := Nat.exists_eq_add_of_lt hlt
    have h0 : globHasMatch fs (seqName base i) = true := by
      have := hall 0 (Nat.succ_pos d)
      rwa [Nat.add_zero] at this
    have hall2 : ∀ j, j < d → globHasMatch fs (seqName base ((i + 1) + j)) = true := by
      intro j hj
      have := hall (j + 1) (by omega)
      rwa [show i + (j + 1) = (i + 1) + j by omega] at this
    have hfree2 : globHasMatch fs (seqName base ((i + 1) + d)) = false := by
      rwa [show i + (d + 1) = (i + 1) + d by omega] at hfree
    have hrec := ih (i + 1) (d + 1 + f) hall2 hfree2 (by omega)
    show GetSequentialFileName fs base (d + 1 + f + 1) i = _
    rw [show d + 1 + f + 1 = (d + 1 + f) + 1 by omega]
    simp only [GetSequentialFileName, h0, if_pos]
    rw [show (i + 1) + d = i + (d + 1) by omega] at hrec
    exact hrec

/-- C9: when a repeat count other than 1 is configured, the trace and
profile output names are the safe name joined to the output directory
plus `_NNN`, where `NNN` is the lowest non-negative index whose base
name matches no existing file under the wildcard extension glob,
zero-padded to three digits (trace names additionally get `.json`). -/
theorem sequential_file_name_spec (fs : List String) (dir safe : String)
    (k fuel pr psr : Nat)
    (hall : ∀ j, j < k → globHasMatch fs (seqName (dir ++ "/" ++ safe) j) = true)
    (hfree : globHasMatch fs (seqName (dir ++ "/" ++ safe) k) = false)
    (hfuel : k < fuel) (hrep : pr ≠ 1 ∨ psr ≠ 1) :
    traceFileName pr psr fs dir safe fuel =
      some (seqName (dir ++ "/" ++ safe) k ++ ".json") ∧
    profileFileName pr psr fs dir safe fuel =
      some (seqName (dir ++ "/" ++ safe) k) ∧
    (k < 1000 → (pad3 k).length = 3) := by
  have hseq := getSequentialFileName_from fs (dir ++ "/" ++ safe) k 0 fuel
    (by intro j hj; simpa using hall j hj)
    (by simpa using hfree) hfuel
  rw [Nat.zero_add] at hseq
  refine ⟨?_, ?_, ?_⟩
  · rw [traceFileName, if_pos hrep, hseq]
    rfl
  · rw [profileFileName, if_pos hrep, hseq]
  · intro hk
    rw [pad3, if_pos hk]
    rfl

/-- C9 witness: three consecutive runs against the same item name with
`page_repeat = 2` produce `_000`, then `_001`, then `_002`, with no
collision against the files created by the earlier runs. -/
theorem sequential_file_name_spec_witness :
    traceFileName 2 1 [] "out" "page" 1 = some "out/page_000.json" ∧
    traceFileName 2 1 ["out/page_000.json"] "out" "page" 2 = some "out/page_001.json" ∧
    traceFileName 2 1 ["out/page_000.json", "out/page_001.json"] "out" "page" 3 =
      some "out/page_002.json" := by
  refine ⟨?_, ?_, ?_⟩
  · have h := sequential_file_name_spec [] "out" "page" 0 1 2 1
      (by intro j hj; omega) (by decide) (by omega) (by omega)
    exact h.1
  · have h := sequential_file_name_spec ["out/page_000.json"] "out" "page" 1 2 2 1
      (by intro j hj; interval_cases j; decide) (by decide) (by omega) (by omega)
    exact h.1
  · have h := sequential_file_name_spec ["out/page_000.json", "out/page_001.json"]
      "out" "page" 2 3 2 1
      (by intro j hj; interval_cases j <;> decide) (by decide) (by omega) (by omega)
    exact h.1

/-- C10: a page whose URL scheme is `file` is skipped by the pre-loop
archive check: it never fails the check, it always survives into the
executable sequence, and (page identities being distinct) no
missing-archive failure is recorded for it — regardless of the
live-sites flag, the recording mode, or its archive path. -/
theorem file_scheme_skips_archive_check (allow_live_sites wpr_record : Bool)
    (isFile : String → Bool) (pages : List Page) (p : Page)
    (hscheme : p.url_scheme = "file") :
    archiveCheckFails allow_live_sites wpr_record isFile p = false ∧
    (p ∈ pages → p ∈ (archiveCheck allow_live_sites wpr_record isFile pages).1) ∧
    ((∀ q ∈ pages, q.id = p.id → q = p) →
      Event.addFailure p.id ∉ (archiveCheck allow_live_sites wpr_record isFile pages).2) := by
  have hf : archiveCheckFails allow_live_sites wpr_record isFile p = false := by
    rw [archiveCheckFails, if_pos hscheme]
  have hnot : p ∉ pages.filter (archiveCheckFails allow_live_sites wpr_record isFile) := by
    intro hmem
    rw [List.mem_filter, hf] at hmem
    exact absurd hmem.2 (by simp)
  refine ⟨hf, ?_, ?_⟩
  · intro hp
    simp only [archiveCheck]
    rw [List.mem_filter]
    exact ⟨hp, by simp [hnot]⟩
  · intro huniq hmem
    simp only [archiveCheck, List.mem_map] at hmem
    obtain ⟨q, hq, heq⟩ := hmem
    rw [List.mem_filter] at hq
    have hid : q.id = p.id := by
      injection heq
    have hqp : q = p := huniq q hq.1 hid
    rw [hqp, hf] at hq
    exact absurd hq.2 (by simp)

/-- C10 witness: a concrete `file`-scheme page with no archive path
survives the archive check and triggers no failure even with live sites
disallowed and recording off. -/
theorem file_scheme_skips_archive_check_witness :
    archiveCheckFails false false (fun _ => false) ⟨0, "file", none, false⟩ = false ∧
    ⟨0, "file", none, false⟩ ∈
      (archiveCheck false false (fun _ => false) [⟨0, "file", none, false⟩]).1 ∧
    Event.addFailure 0 ∉
      (archiveCheck false false (fun _ => false) [⟨0, "file", none, false⟩]).2 := by
  have h := file_scheme_skips_archive_check false false (fun _ => false)
    [⟨0, "file", none, false⟩] ⟨0, "file", none, false⟩ rfl
  exact ⟨h.1, h.2.1 (by simp), h.2.2 (by intro q hq hid; simpa using hq)⟩

/-- C1: execution of an item is attempted at most 3 times (at most three
`CanRunForPage` capability checks per retry loop, whatever the attempt
outcomes); and with four consecutive lost-connection faults scripted for
one item, the loop performs exactly three attempts — each tearing the
session down and rebuilding it — then propagates fatally, so no
remaining item contributes any event and there is never a fourth
attempt. -/
theorem retry_budget_at_most_three_attempts :
    (∀ (cfg : LoopCfg) (sched : List AttemptScript) (pg : Page) (i : Nat) (st : RunState),
      countCap (runTries cfg sched pg i 3 st).1 ≤ 3) ∧
    (∀ (cfg : LoopCfg) (id : Nat) (rest : List WorkItem),
      runPages cfg (⟨pageH id, List.replicate 4 goneScript⟩ :: rest) RunState.init none =
        ([[Event.browserCreate id, Event.tabAcquire, Event.capabilityCheck id,
           Event.tabDisconnect, Event.browserClose,
           Event.browserCreate id, Event.tabAcquire, Event.capabilityCheck id,
           Event.tabDisconnect, Event.browserClose,
           Event.browserCreate id, Event.tabAcquire, Event.capabilityCheck id,
           Event.tabDisconnect, Event.browserClose]],
         ⟨false, false, false⟩, true)) := by
  constructor
  · intro cfg sched pg i st
    exact countCap_runTries_le cfg sched pg 3 i st
  · intro cfg id rest
    obtain ⟨nr, trc⟩ := cfg
    cases trc <;> rfl

/-- C6 (corrected): when the item loop completes normally, the finalize
hook `DidRunPageSet` is invoked exactly once and the final teardown
follows it; when the loop aborts on a propagated fault the hook is not
invoked at all; in both cases the `finally` teardown leaves no live
session behind. -/
theorem finalize_hook_placement (cfg : LoopCfg) (items : List WorkItem) :
    ((RunLoop cfg items).2.2.2 = false →
      countHook (RunLoop.events cfg items) = 1 ∧
      (RunLoop cfg items).2.1 =
        Event.didRunPageSet :: ((runPages cfg items RunState.init none).2.1.Close).2) ∧
    ((RunLoop cfg items).2.2.2 = true →
      countHook (RunLoop.events cfg items) = 0) ∧
    (RunLoop cfg items).2.2.1 = ⟨false, false, false⟩ := by
  have hblocks := countHook_runPages cfg items RunState.init none
  have hclose := countHook_Close (runPages cfg items RunState.init none).2.1
  rcases hr : runPages cfg items RunState.init none with ⟨blocks, stF, fatal⟩
  rw [hr] at hblocks hclose
  simp only at hblocks hclose
  cases fatal
  · refine ⟨fun _ => ⟨?_, ?_⟩, fun h => ?_, ?_⟩
    · simp only [RunLoop.events, RunLoop, hr]
      rw [countHook_append, countHook_append]
      simp only [Bool.false_eq_true, if_neg]
      rw [hblocks, hclose]
      rfl
    · simp only [RunLoop, hr]
      simp
    · simp only [RunLoop, hr] at h
      exact absurd h (by simp)
    · simp only [RunLoop, hr]
      rfl
  · refine ⟨fun h => ?_, fun _ => ?_, ?_⟩
    · simp only [RunLoop, hr] at h
      exact absurd h (by simp)
    · simp only [RunLoop.events, RunLoop, hr]
      rw [countHook_append, countHook_append]
      simp only [Bool.true_eq_false, if_pos]
      rw [hblocks, hclose]
      rfl
    · simp only [RunLoop, hr]
      rfl

/-- C6 counterexample: a run aborted by an unexpected fault never
invokes the finalize hook — its invocation count is 0, not 1 — though
the final teardown still runs; this refutes the claim that the hook is
invoked exactly once regardless of how the loop terminates. -/
theorem fatal_abort_no_finalize_cex :
    (RunLoop ⟨false, false, false⟩ [⟨pageH 0, [⟨true, .ok, .otherError⟩]⟩]).2.2.2 = true ∧
    countHook (RunLoop.events ⟨false, false, false⟩ [⟨pageH 0, [⟨true, .ok, .otherError⟩]⟩]) = 0 ∧
    (RunLoop ⟨false, false, false⟩ [⟨pageH 0, [⟨true, .ok, .otherError⟩]⟩]).2.2.1 =
      ⟨false, false, false⟩ :=
  ⟨rfl, rfl, rfl⟩

/-- C6 witness: a normally completing single-item run invokes the
finalize hook exactly once and ends with no live session. -/
theorem finalize_hook_placement_witness :
    countHook (RunLoop.events ⟨false, false, false⟩ [⟨pageH 1, [okScript]⟩]) = 1 ∧
    (RunLoop ⟨false, false, false⟩ [⟨pageH 1, [okScript]⟩]).2.2.1 = ⟨false, false, false⟩ := by
  have h := finalize_hook_placement ⟨false, false, false⟩ [⟨pageH 1, [okScript]⟩]
  exact ⟨(h.1 rfl).1, h.2.2⟩

/-- C7 (corrected): an item whose Run phase raises a tab crash gets
exactly one `AddFailure` recorded and its session is torn down (one
browser close in its block).  When no profiler is configured, the loop
is not aborted and the next item executes with a freshly rebuilt
session (one browser creation in its block and its own capability
check).  When a profiler is configured, the unguarded
`state.browser.StopProfiling()` after the handler's `state.Close()`
raises on the `None` browser, so the run aborts and the next item never
executes. -/
theorem tab_crash_records_failed_outcome (cfg : LoopCfg) (id1 id2 : Nat)
    (s1 : AttemptScript) (hc : s1.canRun = true) (hp : s1.prep = .ok)
    (hr : s1.run = .tabCrash) :
    (cfg.profiling = false →
      (runPages cfg [⟨pageH id1, [s1]⟩, ⟨pageH id2, [okScript]⟩] RunState.init none).2.2 =
        false ∧
      (runPages cfg [⟨pageH id1, [s1]⟩, ⟨pageH id2, [okScript]⟩] RunState.init none).1.length =
        2 ∧
      countFailures
        ((runPages cfg [⟨pageH id1, [s1]⟩, ⟨pageH id2, [okScript]⟩] RunState.init none).1.getD 0 []) =
        1 ∧
      countCloses
        ((runPages cfg [⟨pageH id1, [s1]⟩, ⟨pageH id2, [okScript]⟩] RunState.init none).1.getD 0 []) =
        1 ∧
      countCreates
        ((runPages cfg [⟨pageH id1, [s1]⟩, ⟨pageH id2, [okScript]⟩] RunState.init none).1.getD 1 []) =
        1 ∧
      Event.capabilityCheck id2 ∈
        (runPages cfg [⟨pageH id1, [s1]⟩, ⟨pageH id2, [okScript]⟩] RunState.init none).1.getD 1 []) ∧
    (cfg.profiling = true →
      (runPages cfg [⟨pageH id1, [s1]⟩, ⟨pageH id2, [okScript]⟩] RunState.init none).2.2 =
        true ∧
      (runPages cfg [⟨pageH id1, [s1]⟩, ⟨pageH id2, [okScript]⟩] RunState.init none).1.length =
        1 ∧
      countFailures
        ((runPages cfg [⟨pageH id1, [s1]⟩, ⟨pageH id2, [okScript]⟩] RunState.init none).1.getD 0 []) =
        1 ∧
      countCloses
        ((runPages cfg [⟨pageH id1, [s1]⟩, ⟨pageH id2, [okScript]⟩] RunState.init none).1.getD 0 []) =
        1) := by
  obtain ⟨c, p, r⟩ := s1
  simp only at hc hp hr
  subst hc
  subst hp
  subst hr
  obtain ⟨nr, trc, pf⟩ := cfg
  cases pf
  · refine ⟨fun _ => ?_, fun h => by simp at h⟩
    cases nr <;> cases trc <;>
      exact ⟨rfl, rfl, rfl, rfl, rfl,
        List.Mem.tail _ (List.Mem.tail _ (List.Mem.head _))⟩
  · refine ⟨fun h => by simp at h, fun _ => ?_⟩
    cases nr <;> cases trc <;> exact ⟨rfl, rfl, rfl, rfl⟩

/-- C7 counterexample: with a profiler configured, a Run-phase tab crash
does NOT proceed to the next item — the run aborts fatally after the
session teardown (the only processed block is the crashed item's, the
failure is still recorded) — refuting the claim that execution always
continues to the next item without aborting the run. -/
theorem tab_crash_with_profiler_aborts_cex :
    (runPages ⟨false, false, true⟩
      [⟨pageH 0, [⟨true, .ok, .tabCrash⟩]⟩, ⟨pageH 1, [okScript]⟩]
      RunState.init none).2.2 = true ∧
    (runPages ⟨false, false, true⟩
      [⟨pageH 0, [⟨true, .ok, .tabCrash⟩]⟩, ⟨pageH 1, [okScript]⟩]
      RunState.init none).1.length = 1 ∧
    countFailures ((runPages ⟨false, false, true⟩
      [⟨pageH 0, [⟨true, .ok, .tabCrash⟩]⟩, ⟨pageH 1, [okScript]⟩]
      RunState.init none).1.getD 0 []) = 1 :=
  ⟨rfl, rfl, rfl⟩

/-- C7 witness: without a profiler a concrete tab-crash run records one
failure, does not abort, and reruns the next item on a rebuilt session;
with a profiler the same crash aborts the run. -/
theorem tab_crash_records_failed_outcome_witness :
    (runPages ⟨false, false, false⟩ [⟨pageH 7, [⟨true, .ok, .tabCrash⟩]⟩, ⟨pageH 8, [okScript]⟩]
      RunState.init none).2.2 = false ∧
    countFailures
      ((runPages ⟨false, false, false⟩ [⟨pageH 7, [⟨true, .ok, .tabCrash⟩]⟩, ⟨pageH 8, [okScript]⟩]
        RunState.init none).1.getD 0 []) = 1 ∧
    countCreates
      ((runPages ⟨false, false, false⟩ [⟨pageH 7, [⟨true, .ok, .tabCrash⟩]⟩, ⟨pageH 8, [okScript]⟩]
        RunState.init none).1.getD 1 []) = 1 ∧
    (runPages ⟨false, false, true⟩ [⟨pageH 7, [⟨true, .ok, .tabCrash⟩]⟩, ⟨pageH 8, [okScript]⟩]
      RunState.init none).2.2 = true := by
  have h := tab_crash_records_failed_outcome ⟨false, false, false⟩ 7 8 ⟨true, .ok, .tabCrash⟩
    rfl rfl rfl
  have h2 := tab_crash_records_failed_outcome ⟨false, false, true⟩ 7 8 ⟨true, .ok, .tabCrash⟩
    rfl rfl rfl
  exact ⟨(h.1 rfl).1, (h.1 rfl).2.2.1, (h.1 rfl).2.2.2.2.1, (h2.2 rfl).1⟩

lemma runPages_cons_done_same (cfg : LoopCfg) (w : WorkItem) (rest : List WorkItem)
    (st : RunState) (la : Option String) (hnr : cfg.needsRestart = false)
    (hdone : (RunPage (w.sched.getD 0 default) w.page.id).2 = .done)
    (hla : la = w.page.archive_path) :
    runPages cfg (w :: rest) st la =
      (((if st.browser then [] else [Event.browserCreate w.page.id]) ++
        (if st.tab then [] else [Event.tabAcquire]) ++
        (RunPage (w.sched.getD 0 default) w.page.id).1) ::
        (runPages cfg rest ⟨true, true, if cfg.tracing then false else st.is_tracing⟩
          w.page.archive_path).1,
       (runPages cfg rest ⟨true, true, if cfg.tracing then false else st.is_tracing⟩
          w.page.archive_path).2) := by
  have ht := runTries_done cfg w.sched w.page st hdone hnr
  simp only [runPages, if_pos hla, ht]
  simp

lemma runPages_cons_done_diff (cfg : LoopCfg) (w : WorkItem) (rest : List WorkItem)
    (st : RunState) (la : Option String) (hnr : cfg.needsRestart = false)
    (hdone : (RunPage (w.sched.getD 0 default) w.page.id).2 = .done)
    (hla : ¬ la = w.page.archive_path) :
    runPages cfg (w :: rest) st la =
      (((st.Close).2 ++
        (Event.browserCreate w.page.id :: Event.tabAcquire ::
          (RunPage (w.sched.getD 0 default) w.page.id).1)) ::
        (runPages cfg rest ⟨true, true, false⟩ w.page.archive_path).1,
       (runPages cfg rest ⟨true, true, false⟩ w.page.archive_path).2) := by
  have ht := runTries_done cfg w.sched w.page ⟨false, false, false⟩ hdone hnr
  simp only [runPages, if_neg hla]
  rw [show (st.Close).1 = ⟨false, false, false⟩ from rfl] at *
  simp only [ht]
  simp

/-- C4 (corrected): provided the test does not demand a browser restart
after each item and both executions complete without faults, a pair of
consecutive items sharing an archive path reuses the live session — the
later item's event block is exactly its `_RunPage` events, with no
teardown and no creation — while a pair with differing archive paths
performs exactly one teardown followed by exactly one creation before
the later item executes. -/
theorem session_reuse_and_replacement (cfg : LoopCfg) (w1 w2 : WorkItem)
    (rest : List WorkItem) (tr : Bool) (la : Option String)
    (hnr : cfg.needsRestart = false)
    (h1 : (RunPage (w1.sched.getD 0 default) w1.page.id).2 = .done)
    (h2 : (RunPage (w2.sched.getD 0 default) w2.page.id).2 = .done) :
    (w1.page.archive_path = w2.page.archive_path →
      (runPages cfg (w1 :: w2 :: rest) ⟨true, true, tr⟩ la).1.getD 1 [] =
        (RunPage (w2.sched.getD 0 default) w2.page.id).1 ∧
      countCloses ((runPages cfg (w1 :: w2 :: rest) ⟨true, true, tr⟩ la).1.getD 1 []) = 0 ∧
      countCreates ((runPages cfg (w1 :: w2 :: rest) ⟨true, true, tr⟩ la).1.getD 1 []) = 0) ∧
    (¬ w1.page.archive_path = w2.page.archive_path →
      (runPages cfg (w1 :: w2 :: rest) ⟨true, true, tr⟩ la).1.getD 1 [] =
        Event.tabDisconnect :: Event.browserClose :: Event.browserCreate w2.page.id ::
          Event.tabAcquire :: (RunPage (w2.sched.getD 0 default) w2.page.id).1 ∧
      countCloses ((runPages cfg (w1 :: w2 :: rest) ⟨true, true, tr⟩ la).1.getD 1 []) = 1 ∧
      countCreates ((runPages cfg (w1 :: w2 :: rest) ⟨true, true, tr⟩ la).1.getD 1 []) = 1) := by
  have hw1 : ∃ tr1, (runPages cfg (w1 :: w2 :: rest) ⟨true, true, tr⟩ la).1.getD 1 [] =
      (runPages cfg (w2 :: rest) ⟨true, true, tr1⟩ w1.page.archive_path).1.getD 0 [] := by
    by_cases hla : la = w1.page.archive_path
    · rw [runPages_cons_done_same cfg w1 (w2 :: rest) ⟨true, true, tr⟩ la hnr h1 hla]
      exact ⟨_, rfl⟩
    · rw [runPages_cons_done_diff cfg w1 (w2 :: rest) ⟨true, true, tr⟩ la hnr h1 hla]
      exact ⟨false, rfl⟩
  obtain ⟨tr1, hgd⟩ := hw1
  rw [hgd]
  constructor
  · intro harch
    rw [runPages_cons_done_same cfg w2 rest ⟨true, true, tr1⟩ w1.page.archive_path hnr h2 harch]
    refine ⟨rfl, ?_, ?_⟩
    · exact (runPage_no_session_events (w2.sched.getD 0 default) w2.page.id).1
    · exact (runPage_no_session_events (w2.sched.getD 0 default) w2.page.id).2
  · intro harch
    rw [runPages_cons_done_diff cfg w2 rest ⟨true, true, tr1⟩ w1.page.archive_path hnr h2 harch]
    have h0 := runPage_no_session_events (w2.sched.getD 0 default) w2.page.id
    refine ⟨rfl, ?_, ?_⟩
    · have hcl := h0.1
      simp only [countCloses, List.getD_eq_getElem?_getD] at hcl
      simp [countCloses, RunState.Close, List.filter_cons, hcl]
    · have hcr := h0.2
      simp only [countCreates, List.getD_eq_getElem?_getD] at hcr
      simp [countCreates, RunState.Close, List.filter_cons, hcr]

/-- C4 counterexample: with a test that demands a browser restart after
each run, two consecutive items with the SAME archive path still get a
teardown (end of the first block) and a creation (start of the second
block) between their executions — refuting the unconditional claim that
same-archive neighbours share the live session with no teardown/creation
pair between them. -/
theorem same_archive_restart_creates_cex :
    (pageH 1).archive_path = (pageH 2).archive_path ∧
    countCloses ((runPages ⟨true, false, false⟩ [⟨pageH 1, [okScript]⟩, ⟨pageH 2, [okScript]⟩]
      RunState.init none).1.getD 0 []) = 1 ∧
    countCreates ((runPages ⟨true, false, false⟩ [⟨pageH 1, [okScript]⟩, ⟨pageH 2, [okScript]⟩]
      RunState.init none).1.getD 1 []) = 1 :=
  ⟨rfl, rfl, rfl⟩

/-- C4 witness: without restart demands and with fault-free items, an
archive-path change gives exactly one teardown and one creation before
the later item, while a same-archive successor gets neither. -/
theorem session_reuse_and_replacement_witness :
    countCloses ((runPages ⟨false, false, false⟩
      [⟨⟨1, "u", none, false⟩, [okScript]⟩, ⟨⟨2, "u", some "a.wpr", false⟩, [okScript]⟩]
      ⟨true, true, false⟩ none).1.getD 1 []) = 1 ∧
    countCreates ((runPages ⟨false, false, false⟩
      [⟨⟨1, "u", none, false⟩, [okScript]⟩, ⟨⟨2, "u", some "a.wpr", false⟩, [okScript]⟩]
      ⟨true, true, false⟩ none).1.getD 1 []) = 1 ∧
    countCloses ((runPages ⟨false, false, false⟩
      [⟨⟨1, "u", none, false⟩, [okScript]⟩, ⟨⟨3, "u", none, false⟩, [okScript]⟩]
      ⟨true, true, false⟩ none).1.getD 1 []) = 0 ∧
    countCreates ((runPages ⟨false, false, false⟩
      [⟨⟨1, "u", none, false⟩, [okScript]⟩, ⟨⟨3, "u", none, false⟩, [okScript]⟩]
      ⟨true, true, false⟩ none).1.getD 1 []) = 0 := by
  have hdiff := session_reuse_and_replacement ⟨false, false, false⟩
    ⟨⟨1, "u", none, false⟩, [okScript]⟩ ⟨⟨2, "u", some "a.wpr", false⟩, [okScript]⟩
    [] false none rfl rfl rfl
  have hsame := session_reuse_and_replacement ⟨false, false, false⟩
    ⟨⟨1, "u", none, false⟩, [okScript]⟩ ⟨⟨3, "u", none, false⟩, [okScript]⟩
    [] false none rfl rfl rfl
  exact ⟨(hdiff.2 (by decide)).2.1, (hdiff.2 (by decide)).2.2,
    (hsame.1 rfl).2.1, (hsame.1 rfl).2.2⟩
